import Mathlib

/-!
Shallow embedding of `src/predict.py` (createsafe/cog-musicgen-remixer).

The numeric pipeline operates on IEEE-754-like values: we model a sample as
either NaN, a signed infinity, or a finite exact rational.  Tensor operations
used by the code (`isnan`, `isinf`, `abs`, `max`, `/`, `*`, masked
assignment, slicing) are given their IEEE/torch semantics on this type.
Waveforms are lists of such values (a single channel; the claims under
study are about per-sample values and sample counts, not channel layout).
-/

/-- A floating-point sample value: NaN, a signed infinity (`true` = +inf),
or a finite rational. -/
inductive FVal where
  | nan : FVal
  | inf : Bool → FVal
  | fin : ℚ → FVal
deriving DecidableEq, Repr

/-- torch.isnan on one sample. -/
def fisnan : FVal → Bool
  | .nan => true
  | _ => false

/-- torch.isinf on one sample. -/
def fisinf : FVal → Bool
  | .inf _ => true
  | _ => false

/-- A sample is finite when it is neither NaN nor infinite. -/
def isFiniteV (x : FVal) : Bool := !(fisnan x) && !(fisinf x)

/-- Absolute value on rationals, written so the kernel evaluates it. -/
def rabs (q : ℚ) : ℚ := if q < 0 then -q else q

/-- Maximum on rationals, written so the kernel evaluates it. -/
def rmax (a b : ℚ) : ℚ := if a ≤ b then b else a

/-- torch.abs on one sample. -/
def fabs : FVal → FVal
  | .nan => .nan
  | .inf _ => .inf true
  | .fin q => .fin (rabs q)

/-- Binary maximum with NaN propagation, as torch's max reduction behaves. -/
def fmax : FVal → FVal → FVal
  | .nan, _ => .nan
  | _, .nan => .nan
  | .inf true, _ => .inf true
  | .fin _, .inf true => .inf true
  | .inf false, y => y
  | .fin a, .inf false => .fin a
  | .fin a, .fin b => .fin (rmax a b)

/-- IEEE division of samples (0/0 = NaN, x/0 = ±inf for x ≠ 0, NaN poisons). -/
def fdiv : FVal → FVal → FVal
  | .nan, _ => .nan
  | .inf _, .nan => .nan
  | .fin _, .nan => .nan
  | .inf _, .inf _ => .nan
  | .inf s, .fin q => .inf (if q < 0 then !s else s)
  | .fin _, .inf _ => .fin 0
  | .fin a, .fin b =>
      if b = 0 then (if a = 0 then .nan else .inf (decide (0 < a)))
      else .fin (a / b)

/-- IEEE multiplication of samples (0 × inf = NaN, NaN poisons). -/
def fmul : FVal → FVal → FVal
  | .nan, _ => .nan
  | .inf _, .nan => .nan
  | .fin _, .nan => .nan
  | .inf s, .inf t => .inf (s == t)
  | .inf s, .fin q => if q = 0 then .nan else .inf (if 0 < q then s else !s)
  | .fin q, .inf s => if q = 0 then .nan else .inf (if 0 < q then s else !s)
  | .fin a, .fin b => .fin (a * b)

/-- Embedding of `wav.abs().max()`: maximum of absolute values, folded with NaN
propagation.  The base `fin 0` is sound because every folded element is an
absolute value (nonnegative finite, +inf, or NaN). -/
def absMax (l : List FVal) : FVal :=
  (l.map fabs).foldl fmax (.fin 0)

/-- Lines 299-303 / 388-392 of predict.py: masks of NaN and inf positions are
taken, then NaN positions are set to 0 and infinite positions to 1. -/
def sanitize (l : List FVal) : List FVal :=
  l.map fun x => if fisnan x then .fin 0 else if fisinf x then .fin 1 else x

/-- Lines 305-306 of predict.py, applied to the sanitized generated waveform:
`wav_amp = wav.abs().max(); wav = (wav/wav_amp).cpu()`.  The division is
unconditional: there is no guard against a zero (or NaN) peak here. -/
def stage1 (wav : List FVal) : List FVal :=
  let w := sanitize wav
  w.map fun x => fdiv x (absMax w)

/-- Line 316 of predict.py: `wav_length = wav.shape[-1]`, taken from the
generated-and-normalized waveform itself, not from the input clip. -/
def wavLen (wav : List FVal) : ℕ :=
  (stage1 wav).length

/-- Line 381 of predict.py:
`wav = 0.5*(wav/wav_amp).cpu()[...,:wav_length].cpu()*0.5`, where `wav` is
the stage-1 output and `wav_amp` its peak (line 378). -/
def mixWav (wav : List FVal) : List FVal :=
  let w := stage1 wav
  let amp := absMax w
  ((w.map fun x => fmul (.fin (1/2)) (fdiv x amp)).take (wavLen wav)).map
    fun x => fmul x (.fin (1/2))

/-- Line 384 of predict.py:
`output[0, :] = 0.5*(wav/wav_amp).cpu()[...,:wav_length].cpu()*0.5`.
Here `wav` is already the line-381 result (`mixWav`) while `wav_amp` is still
the line-378 peak of the stage-1 waveform, so the 0.25 gain and the division
by the peak are each applied a second time. -/
def outCh0 (wav : List FVal) : List FVal :=
  let amp := absMax (stage1 wav)
  ((mixWav wav |>.map fun x => fmul (.fin (1/2)) (fdiv x amp)).take
      (wavLen wav)).map fun x => fmul x (.fin (1/2))

/-- Line 385 of predict.py:
`output[1, :] = 0.5*(vocal/vocal_amp).cpu()[...,:wav_length].cpu()*0.5`, with
`vocal_amp = vocal.abs().max()` from line 379 (the raw vocal stem is never
sanitized). -/
def outCh1 (wav vocal : List FVal) : List FVal :=
  let vamp := absMax vocal
  ((vocal.map fun x => fmul (.fin (1/2)) (fdiv x vamp)).take (wavLen wav)).map
    fun x => fmul x (.fin (1/2))

/-- The two-channel buffer assembled in lines 383-385 and handed to
`audio_write("out", output, ...)` at line 398, flattened channel 0 then
channel 1. -/
def encodeBuffer (wav vocal : List FVal) : List FVal :=
  outCh0 wav ++ outCh1 wav vocal

/-- Lines 388-396 of predict.py: the second sanitation pass followed by the
guarded peak normalization (`if wav_amp != 0: wav = wav/wav_amp`).  In the
program this is applied to the line-381 variable `wav`, not to the `output`
buffer that gets written. -/
def secondPass (w : List FVal) : List FVal :=
  let w' := sanitize w
  let amp := absMax w'
  if amp = .fin 0 then w' else w'.map fun x => fdiv x amp

/-- Every sample of the buffer is finite. -/
def noNonFinite (l : List FVal) : Bool :=
  l.all isFiniteV

/-- The sample count implied by the input clip: `duration * wav_sr` with
`duration = music_input.shape[-1]/sr` (lines 277-278). -/
def requiredSamples (inputLen inputSr wavSr : ℕ) : ℚ :=
  ((inputLen : ℚ) / (inputSr : ℚ)) * (wavSr : ℚ)

/-- Python `int()` truncation toward zero on a rational. -/
def pyInt (q : ℚ) : ℤ :=
  if 0 ≤ q then ⌊q⌋ else -⌊-q⌋

/-- Lines 267-271 of predict.py, the fallback branch:
`1.1/(int(music_input_analysis.bpm)/60)` when a BPM was detected, else
`0.75`. -/
def fallbackThreshold (bpm : Option ℚ) : ℚ :=
  match bpm with
  | some b => 1.1 / ((pyInt b : ℚ) / 60)
  | none => 0.75

/-- Lines 267-271 of predict.py:
`if not beat_sync_threshold or beat_sync_threshold == -1:` — Python
truthiness makes both `None` and `0.0` (as well as `-1`) select the
fallback. -/
def effectiveThreshold (supplied : Option ℚ) (bpm : Option ℚ) : ℚ :=
  match supplied with
  | none => fallbackThreshold bpm
  | some t => if t = 0 ∨ t = -1 then fallbackThreshold bpm else t

/-- Lines 255-256 of predict.py:
`if not seed or seed == -1: seed = torch.seed() % 2 ** 32 - 1`.  Python
truthiness makes `None`, `0` and `-1` all draw from `torch.seed()`; by
operator precedence the drawn value is `(torch.seed() % 2**32) - 1`.
`rand` stands for the nonnegative value returned by `torch.seed()`. -/
def effectiveSeed (seed : Option ℤ) (rand : ℕ) : ℤ :=
  match seed with
  | none => (rand : ℤ) % 2 ^ 32 - 1
  | some s => if s = 0 ∨ s = -1 then (rand : ℤ) % 2 ^ 32 - 1 else s

/-- The pseudo-random generators seeded by `set_all_seeds`
(lines 491-497 of predict.py). -/
structure RNGState where
  pythonRandom : ℤ
  pythonHashSeed : String
  numpyRandom : ℤ
  torchCpu : ℤ
  torchCuda : ℤ
  cudnnDeterministic : Bool
deriving DecidableEq, Repr

/-- Lines 491-497 of predict.py: `set_all_seeds` seeds `random`, numpy,
torch CPU and torch CUDA with the one value and pins cuDNN determinism. -/
def set_all_seeds (seed : ℤ) : RNGState :=
  { pythonRandom := seed
    pythonHashSeed := toString seed
    numpyRandom := seed
    torchCpu := seed
    torchCuda := seed
    cudnnDeterministic := true }

/-- The caller-supplied arguments of `Predictor.predict` (lines 105-185 of
predict.py).  `music_input_given` is the Python truthiness of the
`music_input` path argument. -/
structure Params where
  model_version : String
  prompt : Option String
  music_input_given : Bool
  multi_band_diffusion : Bool
  normalization_strategy : String
  beat_sync_threshold : Option ℚ
  large_chord_voca : Bool
  chroma_coefficient : ℚ
  top_k : ℤ
  top_p : ℚ
  temperature : ℚ
  classifier_free_guidance : ℤ
  output_format : String
  return_instrumental : Bool
  seed : Option ℤ

/-- The behavior of the external collaborators and the machine during one
prediction call: the loaded checkpoint's codebook count `nq` (8 for stereo
checkpoints), whether the weight file is cached and whether `pget` succeeds,
the value `torch.seed()` would draw, the structure analysis BPM, the loaded
input clip's sample count and rate, the engine sample rate, the separated
vocal stem, the waveform produced by `generate_with_chroma`, the waveform
produced by the multi-band-diffusion decoder, whether `ffmpeg` transcoding
succeeds, and the files present in the working directory at call time. -/
structure Env where
  nq : ℕ
  weightsCached : Bool
  pgetOk : Bool
  randomSeed : ℕ
  bpm : Option ℚ
  inputLen : ℕ
  inputSr : ℕ
  modelSampleRate : ℕ
  vocal : List FVal
  background : List FVal
  genWav : List FVal
  mbdWav : List FVal
  ffmpegOk : Bool
  initialFiles : List String

/-- Observable side effects of one prediction call, in program order. -/
inductive Event where
  | downloadWeights : Event
  | loadModel : Event
  | setSeeds : ℤ → Event
  | analyze : Event
  | separate : Event
  | write : String → Event
  | generate : Event
  | mbdDecode : Event
  | ffmpeg : String → String → Event
deriving DecidableEq, Repr

/-- Outcome of a prediction call: the events performed, the files present in
the working directory afterwards, and either the returned list of paths or
the raised error message. -/
structure RunResult where
  events : List Event
  files : List String
  result : Except String (List String)
  outBuffer : List FVal
deriving Repr

/-- Equality of run outcomes is decidable. -/
instance : DecidableEq (Except String (List String)) := fun x y =>
  match x, y with
  | .error a, .error b =>
    if h : a = b then .isTrue (congrArg Except.error h)
    else .isFalse (fun hc => h (Except.error.inj hc))
  | .ok a, .ok b =>
    if h : a = b then .isTrue (congrArg Except.ok h)
    else .isFalse (fun hc => h (Except.ok.inj hc))
  | .error _, .ok _ => .isFalse Except.noConfusion
  | .ok _, .error _ => .isFalse Except.noConfusion

/-- Whether the run raised. -/
def isErr : Except String (List String) → Bool
  | .error _ => true
  | .ok _ => false

/-- Embedding of `subprocess.call` invoking ffmpeg: creates `dst` only when
the input file exists and the transcoder succeeds; the return code is
ignored, so failure raises nothing. -/
def ffmpegCall (ok : Bool) (src dst : String) (files : List String) :
    List String :=
  if ok ∧ src ∈ files then dst :: files else files

/-- Embedding of `os.remove(name)`: deletes the file, raising FileNotFoundError when it
does not exist. -/
def osRemove (name : String) (files : List String) :
    Except String (List String) :=
  if name ∈ files then .ok (files.erase name) else .error ("FileNotFoundError: " ++ name)

/-- Lines 405-433 of predict.py: the output-format endgame.  For mp3 output
the wav artifact is transcoded by `subprocess.call` (whose return code is
ignored) and then removed; when the instrumental is requested the path
appended is `background_synced.wav`, which the active pipeline never wrote,
and in the mp3 branch the guarded pre-delete checks `mp3_path` (the main
mix) instead of the instrumental's own mp3 path before `os.remove` on the
missing wav instrumental raises.  `ev1` and `files3` are the events and
files accumulated by the stages before line 405, `buf` the written
two-channel buffer. -/
def endgame (p : Params) (e : Env) (ev1 : List Event) (files3 : List String)
    (buf : List FVal) : RunResult :=
  if p.output_format = "mp3" then
    let f4 := if "out.mp3" ∈ files3 then files3.erase "out.mp3" else files3
    let f5 := ffmpegCall e.ffmpegOk "out.wav" "out.mp3" f4
    let ev2 := ev1 ++ [Event.ffmpeg "out.wav" "out.mp3"]
    match osRemove "out.wav" f5 with
    | .error m => { events := ev2, files := f5, result := .error m, outBuffer := buf }
    | .ok f6 =>
      if p.return_instrumental then
        let f7 := if "out.mp3" ∈ f6 then f6.erase "out.mp3" else f6
        let f8 := ffmpegCall e.ffmpegOk "background_synced.wav" "background_synced.mp3" f7
        let ev3 := ev2 ++ [Event.ffmpeg "background_synced.wav" "background_synced.mp3"]
        match osRemove "background_synced.wav" f8 with
        | .error m => { events := ev3, files := f8, result := .error m, outBuffer := buf }
        | .ok f9 =>
          { events := ev3, files := f9,
            result := .ok ["out.mp3", "background_synced.mp3"], outBuffer := buf }
      else { events := ev2, files := f6, result := .ok ["out.mp3"], outBuffer := buf }
  else
    if p.return_instrumental then
      { events := ev1, files := files3,
        result := .ok ["out.wav", "background_synced.wav"], outBuffer := buf }
    else { events := ev1, files := files3, result := .ok ["out.wav"], outBuffer := buf }

/-- The active control flow of `Predictor.predict` (lines 186-433 of
predict.py): argument validation, weight acquisition, the multi-band
diffusion / stereo check, seeding, structure analysis, vocal separation,
generation (with optional multi-band-diffusion decode), the post-processing
chain of `stage1`/`mixWav`/`outCh0`/`outCh1`/`secondPass`, the three
`audio_write` calls, and the mp3 transcoding and instrumental-return
endgame.  The commented-out beat-sync block (lines 319-374) is not part of
the program.  `outBuffer` records the two-channel buffer written to
`out.wav`. -/
def predict (p : Params) (e : Env) : RunResult :=
  if p.prompt.isNone then
    { events := [], files := e.initialFiles, result := .error "Must provide `prompt`.",
      outBuffer := [] }
  else if p.music_input_given = false then
    { events := [], files := e.initialFiles, result := .error "Must provide `music_input`.",
      outBuffer := [] }
  else if e.weightsCached = false ∧ e.pgetOk = false then
    { events := [.downloadWeights], files := e.initialFiles,
      result := .error "CalledProcessError: pget", outBuffer := [] }
  else
    let ev0 := (if e.weightsCached then [] else [Event.downloadWeights]) ++ [Event.loadModel]
    if p.multi_band_diffusion ∧ e.nq = 8 then
      { events := ev0, files := e.initialFiles,
        result := .error "Multi-band Diffusion only works with non-stereo models.",
        outBuffer := [] }
    else
      let s := effectiveSeed p.seed e.randomSeed
      let wav := if p.multi_band_diffusion then e.mbdWav else e.genWav
      let genEv := if p.multi_band_diffusion then [Event.generate, Event.mbdDecode]
        else [Event.generate]
      let files1 := List.insert "input_vocal.wav" e.initialFiles
      let files2 := List.insert "background.wav" files1
      let files3 := List.insert "out.wav" files2
      let ev1 := ev0 ++ [Event.setSeeds s, Event.analyze, Event.separate,
        Event.write "input_vocal"] ++ genEv ++ [Event.write "background", Event.write "out"]
      let buf := encodeBuffer wav e.vocal
      endgame p e ev1 files3 buf

/-- The events performed before the first seeding of the random generators. -/
def beforeSeeding (l : List Event) : List Event :=
  l.takeWhile fun ev => match ev with
    | .setSeeds _ => false
    | _ => true

/-- A concrete, fully-specified argument set used to instantiate the
universally quantified theorems below. -/
def baseParams : Params where
  model_version := "chord"
  prompt := some "uplifting synth pop"
  music_input_given := true
  multi_band_diffusion := false
  normalization_strategy := "loudness"
  beat_sync_threshold := none
  large_chord_voca := true
  chroma_coefficient := 1
  top_k := 250
  top_p := 0
  temperature := 1
  classifier_free_guidance := 3
  output_format := "wav"
  return_instrumental := false
  seed := none

/-- A concrete, fully-specified collaborator behavior used to instantiate
the universally quantified theorems below. -/
def baseEnv : Env where
  nq := 4
  weightsCached := true
  pgetOk := true
  randomSeed := 7
  bpm := some 120
  inputLen := 6
  inputSr := 2
  modelSampleRate := 2
  vocal := [.fin 2, .fin 1, .fin 1]
  background := [.fin 1, .fin 1, .fin 1]
  genWav := [.fin 2, .fin 1, .fin 1]
  mbdWav := [.fin 1]
  ffmpegOk := true
  initialFiles := []

theorem rabs_nonneg (q : ℚ) : 0 ≤ rabs q := by
  unfold rabs; split <;> linarith

theorem rabs_eq_zero {q : ℚ} (h : rabs q = 0) : q = 0 := by
  unfold rabs at h; split at h <;> linarith

/-- A single `fmax` step that produced minus infinity had both arguments
minus infinity. -/
theorem fmax_ninf (x y : FVal) (h : fmax x y = .inf false) :
    x = .inf false ∧ y = .inf false := by
  cases x with
  | nan => simp [fmax] at h
  | inf s => cases s <;> cases y <;> simp_all [fmax]
  | fin a =>
    cases y with
    | nan => simp [fmax] at h
    | inf t => cases t <;> simp_all [fmax]
    | fin b => simp [fmax] at h

/-- A single `fmax` step that produced a finite value had each argument
either minus infinity or a finite value bounded by the result. -/
theorem fmax_classify (x y : FVal) (c : ℚ) (h : fmax x y = .fin c) :
    (x = .inf false ∨ ∃ a, x = .fin a ∧ a ≤ c) ∧
    (y = .inf false ∨ ∃ b, y = .fin b ∧ b ≤ c) := by
  cases x with
  | nan => cases y <;> simp [fmax] at h
  | inf s =>
    cases s with
    | true => cases y <;> simp [fmax] at h
    | false =>
      cases y with
      | nan => simp [fmax] at h
      | inf t => cases t <;> simp [fmax] at h
      | fin b =>
        simp only [fmax, FVal.fin.injEq] at h
        exact ⟨Or.inl rfl, Or.inr ⟨b, rfl, le_of_eq h⟩⟩
  | fin a =>
    cases y with
    | nan => simp [fmax] at h
    | inf t =>
      cases t with
      | true => simp [fmax] at h
      | false =>
        simp only [fmax, FVal.fin.injEq] at h
        exact ⟨Or.inr ⟨a, rfl, le_of_eq h⟩, Or.inl rfl⟩
    | fin b =>
      simp only [fmax, FVal.fin.injEq] at h
      unfold rmax at h
      constructor
      · refine Or.inr ⟨a, rfl, ?_⟩
        split at h <;> rename_i hab <;> subst h
        · exact hab
        · exact le_refl a
      · refine Or.inr ⟨b, rfl, ?_⟩
        split at h <;> rename_i hab <;> subst h
        · exact le_refl b
        · exact le_of_lt (lt_of_not_le hab)

/-- Classification of a `fmax` fold that produced a finite value: the
accumulator and every folded element is either `-inf` or a finite value
bounded by the result. -/
theorem foldl_fmax_fin (m : List FVal) : ∀ (acc : FVal) (c : ℚ),
    m.foldl fmax acc = .fin c →
    (acc = .inf false ∨ ∃ a, acc = .fin a ∧ a ≤ c) ∧
    ∀ x ∈ m, x = .inf false ∨ ∃ q, x = .fin q ∧ q ≤ c := by
  induction m with
  | nil =>
    intro acc c h
    exact ⟨Or.inr ⟨c, h, le_refl c⟩, by simp⟩
  | cons y ys ih =>
    intro acc c h
    obtain ⟨hacc', hys⟩ := ih (fmax acc y) c h
    have hstep : (acc = .inf false ∨ ∃ a, acc = .fin a ∧ a ≤ c) ∧
        (y = .inf false ∨ ∃ q, y = .fin q ∧ q ≤ c) := by
      rcases hacc' with hif | ⟨a', ha', hle⟩
      · obtain ⟨hx, hy⟩ := fmax_ninf acc y hif
        exact ⟨Or.inl hx, Or.inl hy⟩
      · obtain ⟨hx, hy⟩ := fmax_classify acc y a' ha'
        constructor
        · rcases hx with h1 | ⟨a, ha, hle2⟩
          · exact Or.inl h1
          · exact Or.inr ⟨a, ha, le_trans hle2 hle⟩
        · rcases hy with h1 | ⟨b, hb, hle2⟩
          · exact Or.inl h1
          · exact Or.inr ⟨b, hb, le_trans hle2 hle⟩
    refine ⟨hstep.1, ?_⟩
    intro x hx
    rcases List.mem_cons.mp hx with rfl | hx'
    · exact hstep.2
    · exact hys x hx'

/-- If the folded absolute maximum of a list is zero, every element of the
list is the finite sample 0. -/
theorem absMax_eq_zero {l : List FVal} (h : absMax l = .fin 0) :
    ∀ x ∈ l, x = .fin 0 := by
  intro x hx
  obtain ⟨-, hall⟩ := foldl_fmax_fin (l.map fabs) (.fin 0) 0 h
  have := hall (fabs x) (List.mem_map_of_mem fabs hx)
  cases x with
  | nan => simp [fabs] at this
  | inf s => simp [fabs] at this
  | fin q =>
    rcases this with h1 | ⟨q', hq', hle⟩
    · simp [fabs] at h1
    · simp only [fabs, FVal.fin.injEq] at hq'
      have h0 : q = 0 := rabs_eq_zero (le_antisymm (hq' ▸ hle) (rabs_nonneg q))
      simp [h0]

theorem isFiniteV_sanitizeElem (x : FVal) :
    isFiniteV (if fisnan x then FVal.fin 0 else if fisinf x then FVal.fin 1 else x) = true := by
  cases x <;> simp [fisnan, fisinf, isFiniteV]

theorem noNonFinite_sanitize (l : List FVal) : noNonFinite (sanitize l) = true := by
  rw [noNonFinite, List.all_eq_true]
  intro x hx
  obtain ⟨y, -, rfl⟩ := List.mem_map.mp hx
  exact isFiniteV_sanitizeElem y

theorem sanitize_length (l : List FVal) : (sanitize l).length = l.length := by
  simp [sanitize]

theorem stage1_length (l : List FVal) : (stage1 l).length = l.length := by
  simp [stage1, sanitize]

theorem wavLen_eq (l : List FVal) : wavLen l = l.length :=
  stage1_length l

theorem mixWav_length (l : List FVal) : (mixWav l).length = l.length := by
  simp [mixWav, wavLen_eq, stage1_length]

theorem outCh0_length (l : List FVal) : (outCh0 l).length = l.length := by
  simp [outCh0, wavLen_eq, mixWav_length]

theorem outCh1_length (wav vocal : List FVal) :
    (outCh1 wav vocal).length = min wav.length vocal.length := by
  simp [outCh1, wavLen_eq, Nat.min_comm]

/-- C8: when the caller does not override the beat-sync threshold, a missing
BPM gives the fallback threshold exactly 0.75, and a detected BPM of 120
gives exactly 1.1/(120/60) = 0.55 (lines 267-271 of predict.py). -/
theorem C8_default_thresholds :
    effectiveThreshold none none = 0.75 ∧
    effectiveThreshold none (some 120) = 1.1 / ((120 : ℚ) / 60) ∧
    effectiveThreshold none (some 120) = 0.55 := by
  refine ⟨?_, ?_, ?_⟩ <;>
    norm_num [effectiveThreshold, fallbackThreshold, pyInt, Int.floor_ofNat]

/-- C10: a caller-supplied beat_sync_threshold of 0.0 is falsy in
`if not beat_sync_threshold or beat_sync_threshold == -1`, so it is
discarded and the fallback is computed exactly as when no threshold was
supplied, whatever the detected BPM. -/
theorem C10_zero_threshold_uses_fallback (bpm : Option ℚ) :
    effectiveThreshold (some 0) bpm = fallbackThreshold bpm ∧
    effectiveThreshold (some 0) bpm = effectiveThreshold none bpm := by
  cases bpm <;> simp [effectiveThreshold]

/-- C1 counterexample: with a generated waveform of 5 samples the written
channel keeps 5 samples, whether the input clip implied 3 samples
(3 samples at 1 Hz against a 1 Hz engine — no truncation to 3 happens) or
7 samples (no padding to 7 happens): the slice bound `wav_length` is the
generated waveform's own length, so the claimed equality with
input-duration × engine-rate fails in both directions. -/
theorem C1_counterexample :
    ((outCh0 (List.replicate 5 (FVal.fin 1))).length : ℚ) ≠ requiredSamples 3 1 1 ∧
    ((outCh0 (List.replicate 5 (FVal.fin 1))).length : ℚ) ≠ requiredSamples 7 1 1 := by
  constructor <;> rw [outCh0_length] <;> norm_num [requiredSamples]

/-- C1 amended: the audio artifact assembled for writing has exactly the
generated waveform's sample count on the mix channel (the `[...,:wav_length]`
slices bound by `wav_length = wav.shape[-1]`, the generated waveform's own
length, so they never truncate or pad toward the input clip's duration), and
the vocal channel is additionally capped by the vocal stem's length. -/
theorem C1_amended_length_is_generated (wav vocal : List FVal) :
    (outCh0 wav).length = wav.length ∧
    (outCh1 wav vocal).length = min wav.length vocal.length :=
  ⟨outCh0_length wav, outCh1_length wav vocal⟩

/-- C2 counterexample: a generated waveform consisting of one NaN sample is
sanitized to all zeros, the unguarded division by the zero peak at line 306
turns it back into NaN, and the assembled buffer handed to final encoding
still contains a non-finite value — the second sanitation pass (lines
388-392) runs on the `wav` variable, not on the written `output` buffer. -/
theorem C2_counterexample :
    noNonFinite (encodeBuffer [FVal.nan] [FVal.fin 1]) = false := by
  norm_num [encodeBuffer, outCh0, outCh1, mixWav, stage1, sanitize, absMax, wavLen,
    fabs, fmax, fdiv, fmul, fisnan, fisinf, rabs, rmax, noNonFinite, isFiniteV]

/-- C2 amended: each sanitation pass itself does replace every NaN sample
with 0.0 and every infinite sample with 1.0 and leaves no non-finite value
in its own output; the buffer handed to final encoding, however, is
assembled before the second pass and divided by possibly zero or NaN peaks,
so it can still contain non-finite values (see the counterexample). -/
theorem C2_amended_sanitize_contract (l : List FVal) (i : ℕ) (x : FVal)
    (hx : l[i]? = some x) :
    noNonFinite (sanitize l) = true ∧
    (fisnan x = true → (sanitize l)[i]? = some (FVal.fin 0)) ∧
    (fisinf x = true → (sanitize l)[i]? = some (FVal.fin 1)) := by
  refine ⟨noNonFinite_sanitize l, ?_, ?_⟩ <;>
    · intro h
      rw [sanitize, List.getElem?_map, hx]
      cases x <;> simp_all [fisnan, fisinf]

/-- Witness for the C2 amended theorem at a concrete buffer. -/
theorem C2_amended_witness :
    ([FVal.nan, FVal.inf true, FVal.fin 2][0]? = some FVal.nan) ∧
    (noNonFinite (sanitize [FVal.nan, FVal.inf true, FVal.fin 2]) = true ∧
     (fisnan FVal.nan = true →
       (sanitize [FVal.nan, FVal.inf true, FVal.fin 2])[0]? = some (FVal.fin 0)) ∧
     (fisinf FVal.nan = true →
       (sanitize [FVal.nan, FVal.inf true, FVal.fin 2])[0]? = some (FVal.fin 1))) :=
  ⟨rfl, C2_amended_sanitize_contract [FVal.nan, FVal.inf true, FVal.fin 2] 0 FVal.nan rfl⟩

/-- C5 counterexample: the first peak-normalization step (line 306) has no
zero guard — an all-zero generated waveform has peak 0 and is divided by it
anyway, so the claim that every peak-normalization step divides only when
the peak is nonzero fails: the 0/0 division turns the zero sample into NaN
instead of leaving the sanitized waveform untouched. -/
theorem C5_counterexample :
    absMax (sanitize [FVal.fin 0]) = FVal.fin 0 ∧
    stage1 [FVal.fin 0] = [FVal.nan] ∧
    stage1 [FVal.fin 0] ≠ sanitize [FVal.fin 0] := by
  have h1 : absMax (sanitize [FVal.fin 0]) = FVal.fin 0 := by
    norm_num [sanitize, absMax, fabs, fmax, fisnan, fisinf, rabs, rmax]
  have h2 : stage1 [FVal.fin 0] = [FVal.nan] := by
    norm_num [stage1, sanitize, absMax, fabs, fmax, fdiv, fisnan, fisinf, rabs, rmax]
  have h3 : sanitize [FVal.fin 0] = [FVal.fin 0] := by
    norm_num [sanitize, fisnan, fisinf]
  refine ⟨h1, h2, ?_⟩
  rw [h2, h3]
  simp

/-- C5 amended: only the second peak-normalization step (lines 394-396) is
guarded — on a waveform whose sanitized peak is zero it performs no
division; the first step (line 306) divides unconditionally, so there every
sample of an all-zero (after sanitation) waveform becomes NaN by the 0/0
division. -/
theorem C5_amended_only_second_guarded (w : List FVal)
    (h : absMax (sanitize w) = FVal.fin 0) :
    secondPass w = sanitize w ∧ ∀ x ∈ stage1 w, x = FVal.nan := by
  constructor
  · simp [secondPass, h]
  · intro x hx
    simp only [stage1] at hx
    obtain ⟨y, hy, rfl⟩ := List.mem_map.mp hx
    have hy0 : y = .fin 0 := absMax_eq_zero h y hy
    rw [hy0, h]
    simp [fdiv]

/-- Witness for the C5 amended theorem at a concrete all-zero waveform. -/
theorem C5_amended_witness :
    absMax (sanitize [FVal.fin 0, FVal.nan]) = FVal.fin 0 ∧
    (secondPass [FVal.fin 0, FVal.nan] = sanitize [FVal.fin 0, FVal.nan] ∧
     ∀ x ∈ stage1 [FVal.fin 0, FVal.nan], x = FVal.nan) :=
  ⟨by norm_num [sanitize, absMax, fabs, fmax, fisnan, fisinf, rabs, rmax],
   C5_amended_only_second_guarded [FVal.fin 0, FVal.nan]
     (by norm_num [sanitize, absMax, fabs, fmax, fisnan, fisinf, rabs, rmax])⟩

/-- Applying `0.5 * (x / amp) * 0.5` once equals a single division by the
peak followed by a 1/4 gain. -/
theorem attenuation_once (av : ℚ) (hav : av ≠ 0) (x : FVal) :
    fmul (fmul (.fin (1/2)) (fdiv x (.fin av))) (.fin (1/2)) =
    fmul (fdiv x (.fin av)) (.fin (1/4)) := by
  cases x with
  | nan => simp [fdiv, fmul]
  | inf s => by_cases hneg : av < 0 <;> norm_num [fdiv, fmul, hneg]
  | fin q => norm_num [fdiv, fmul, hav] <;> ring

/-- Applying `0.5 * (x / amp) * 0.5` twice (lines 381 and 384 both run on
the background channel with the same line-378 peak) equals a division by
the squared peak followed by a 1/16 gain. -/
theorem attenuation_twice (a : ℚ) (ha : a ≠ 0) (x : FVal) :
    fmul (fmul (.fin (1/2)) (fdiv (fmul (fmul (.fin (1/2)) (fdiv x (.fin a)))
      (.fin (1/2))) (.fin a))) (.fin (1/2)) =
    fmul (fdiv x (.fin (a * a))) (.fin (1/16)) := by
  have ha2 : a * a ≠ 0 := mul_ne_zero ha ha
  have hpos2 : (0:ℚ) < a * a := mul_self_pos.mpr ha
  have hn2 : ¬ (a * a < 0) := not_lt.mpr (le_of_lt hpos2)
  cases x with
  | nan => simp [fdiv, fmul]
  | inf s => by_cases hneg : a < 0 <;> norm_num [fdiv, fmul, hneg, hn2]
  | fin q =>
    norm_num [fdiv, fmul, ha, ha2]
    field_simp
    first
      | (left; ring)
      | (right; ring)
      | ring

/-- The line-381 mix waveform as a single map over the stage-1 waveform. -/
theorem mixWav_as_map (wav : List FVal) (a : ℚ)
    (hamp : absMax (stage1 wav) = FVal.fin a) :
    mixWav wav = (stage1 wav).map
      (fun x => fmul (fmul (.fin (1/2)) (fdiv x (.fin a))) (.fin (1/2))) := by
  simp only [mixWav, hamp, wavLen]
  rw [List.take_of_length_le (le_of_eq (List.length_map _ _)), List.map_map]
  rfl

/-- The written background channel applies the quarter gain and the peak
division twice over. -/
theorem outCh0_as_map (wav : List FVal) (a : ℚ) (ha : a ≠ 0)
    (hamp : absMax (stage1 wav) = FVal.fin a) :
    outCh0 wav = (stage1 wav).map
      (fun x => fmul (fdiv x (FVal.fin (a * a))) (FVal.fin (1/16))) := by
  simp only [outCh0, hamp, wavLen]
  rw [mixWav_as_map wav a hamp, List.map_map]
  rw [List.take_of_length_le (le_of_eq (by simp)), List.map_map]
  apply List.map_congr_left
  intro x _
  exact attenuation_twice a ha x

/-- The written vocal channel applies the quarter gain and the peak
division once. -/
theorem outCh1_as_map (wav vocal : List FVal) (av : ℚ) (hav : av ≠ 0)
    (hvamp : absMax vocal = FVal.fin av) :
    outCh1 wav vocal = (vocal.map
      (fun x => fmul (fdiv x (FVal.fin av)) (FVal.fin (1/4)))).take wav.length := by
  simp only [outCh1, hvamp, wavLen]
  rw [List.map_take, List.map_map, stage1_length]
  have hcongr : vocal.map ((fun x => fmul x (.fin (1/2))) ∘
      (fun x => fmul (.fin (1/2)) (fdiv x (.fin av)))) =
      vocal.map (fun x => fmul (fdiv x (FVal.fin av)) (FVal.fin (1/4))) :=
    List.map_congr_left (fun x _ => attenuation_once av hav x)
  rw [hcongr]

/-- C9 counterexample: for a generated waveform whose peak-normalized form
is the single sample 1, the claimed channel 0 would be 0.25, but the code
writes 0.0625 — lines 381 and 384 each apply the 0.25 gain and the peak
division to the background channel, so its combined gain is 1/16, not 1/4;
the vocal channel does get the claimed single 1/4 gain. -/
theorem C9_counterexample :
    outCh0 [FVal.fin 1] ≠ [FVal.fin (1/4)] ∧
    outCh0 [FVal.fin 1] = [FVal.fin (1/16)] ∧
    outCh1 [FVal.fin 1] [FVal.fin 1] = [FVal.fin (1/4)] := by
  have h16 : outCh0 [FVal.fin 1] = [FVal.fin (1/16)] := by
    norm_num [outCh0, mixWav, stage1, sanitize, absMax, wavLen, fabs, fmax, fdiv,
      fmul, fisnan, fisinf, rabs, rmax]
  refine ⟨?_, h16, ?_⟩
  · rw [h16]
    norm_num
  · norm_num [outCh1, stage1, sanitize, absMax, wavLen, fabs, fmax, fdiv, fmul,
      fisnan, fisinf, rabs, rmax]

/-- C9 amended: the output buffer has two channels carrying different
source material, but with these gains: channel 0 is the stage-1 background
waveform divided by the square of its line-378 peak and attenuated by 1/16
(the 0.25 gain and the peak division are applied twice, by lines 381 and
384), while channel 1 is the vocal stem divided by its peak once and
attenuated by 1/4. -/
theorem C9_amended_gains (wav vocal : List FVal) (a av : ℚ)
    (ha : a ≠ 0) (hav : av ≠ 0)
    (hamp : absMax (stage1 wav) = FVal.fin a) (hvamp : absMax vocal = FVal.fin av) :
    outCh0 wav = (stage1 wav).map
      (fun x => fmul (fdiv x (FVal.fin (a * a))) (FVal.fin (1/16))) ∧
    outCh1 wav vocal = (vocal.map
      (fun x => fmul (fdiv x (FVal.fin av)) (FVal.fin (1/4)))).take wav.length :=
  ⟨outCh0_as_map wav a ha hamp, outCh1_as_map wav vocal av hav hvamp⟩

/-- Witness for the C9 amended theorem at a concrete waveform and stem. -/
theorem C9_amended_gains_witness :
    ((1:ℚ) ≠ 0 ∧ (3:ℚ) ≠ 0 ∧
     absMax (stage1 [FVal.fin 2]) = FVal.fin 1 ∧
     absMax [FVal.fin 3] = FVal.fin 3) ∧
    (outCh0 [FVal.fin 2] = (stage1 [FVal.fin 2]).map
      (fun x => fmul (fdiv x (FVal.fin (1 * 1))) (FVal.fin (1/16))) ∧
     outCh1 [FVal.fin 2] [FVal.fin 3] = ([FVal.fin 3].map
      (fun x => fmul (fdiv x (FVal.fin 3)) (FVal.fin (1/4)))).take
        ([FVal.fin 2] : List FVal).length) :=
  ⟨⟨by norm_num, by norm_num,
    by norm_num [stage1, sanitize, absMax, fabs, fmax, fdiv, fisnan, fisinf, rabs, rmax],
    by norm_num [absMax, fabs, fmax, rabs, rmax]⟩,
   C9_amended_gains [FVal.fin 2] [FVal.fin 3] 1 3 (by norm_num) (by norm_num)
    (by norm_num [stage1, sanitize, absMax, fabs, fmax, fdiv, fisnan, fisinf, rabs, rmax])
    (by norm_num [absMax, fabs, fmax, rabs, rmax])⟩

/-- C3: whenever multi-band diffusion is requested against a stereo
checkpoint (the loaded config has n_q = 8, line 240 of predict.py), the
prediction raises before any generation step is performed, for every
combination of the other parameters and collaborator behaviors; and as soon
as the earlier argument and download checks pass, the error raised is
exactly the multi-band-diffusion validation error. -/
theorem C3_mbd_stereo_rejected (p : Params) (e : Env)
    (hm : p.multi_band_diffusion = true) (hq : e.nq = 8) :
    isErr (predict p e).result = true ∧
    Event.generate ∉ (predict p e).events ∧
    (p.prompt.isSome = true → p.music_input_given = true →
      (e.weightsCached = true ∨ e.pgetOk = true) →
      (predict p e).result =
        Except.error "Multi-band Diffusion only works with non-stereo models.") := by
  cases hp : p.prompt <;> cases hmi : p.music_input_given <;>
    cases hw : e.weightsCached <;> cases hg : e.pgetOk <;>
      simp_all [predict, isErr]

/-- Witness for the C3 theorem at a concrete stereo configuration. -/
theorem C3_mbd_stereo_rejected_witness :
    (({ baseParams with multi_band_diffusion := true } : Params).multi_band_diffusion = true ∧
     ({ baseEnv with nq := 8 } : Env).nq = 8) ∧
    (isErr (predict { baseParams with multi_band_diffusion := true }
        { baseEnv with nq := 8 }).result = true ∧
     Event.generate ∉ (predict { baseParams with multi_band_diffusion := true }
        { baseEnv with nq := 8 }).events ∧
     (({ baseParams with multi_band_diffusion := true } : Params).prompt.isSome = true →
      ({ baseParams with multi_band_diffusion := true } : Params).music_input_given = true →
      (({ baseEnv with nq := 8 } : Env).weightsCached = true ∨
        ({ baseEnv with nq := 8 } : Env).pgetOk = true) →
      (predict { baseParams with multi_band_diffusion := true }
          { baseEnv with nq := 8 }).result =
        Except.error "Multi-band Diffusion only works with non-stereo models.")) :=
  ⟨⟨rfl, rfl⟩, C3_mbd_stereo_rejected _ _ rfl rfl⟩

/-- Whatever the output format and instrumental options do afterwards, the
endgame only appends events to the trace accumulated before it. -/
theorem endgame_events (p : Params) (e : Env) (ev : List Event)
    (fs : List String) (buf : List FVal) :
    ∃ t, (endgame p e ev fs buf).events = ev ++ t := by
  simp only [endgame]
  repeat' split
  all_goals first
    | exact ⟨[], (List.append_nil _).symm⟩
    | exact ⟨[Event.ffmpeg "out.wav" "out.mp3"], rfl⟩
    | exact ⟨[Event.ffmpeg "out.wav" "out.mp3",
        Event.ffmpeg "background_synced.wav" "background_synced.mp3"],
        List.append_assoc _ _ _⟩

/-- No generation event ever precedes the seeding event in a prediction's
trace. -/
theorem generate_not_before_seeding (p : Params) (e : Env) :
    Event.generate ∉ beforeSeeding (predict p e).events := by
  simp only [predict]
  repeat' split
  all_goals try (simp [beforeSeeding]; done)
  all_goals
    obtain ⟨t, ht⟩ := endgame_events p e _ _ _
    rw [ht]
    simp [beforeSeeding, List.takeWhile_cons]

/-- Every run that returns normally performed the seeding event with the
effective seed. -/
theorem setSeeds_mem_of_ok (p : Params) (e : Env)
    (h : isErr (predict p e).result = false) :
    Event.setSeeds (effectiveSeed p.seed e.randomSeed) ∈ (predict p e).events := by
  simp only [predict] at h ⊢
  repeat' split
  all_goals try (simp_all [isErr]; done)
  all_goals
    obtain ⟨t, ht⟩ := endgame_events p e _ _ _
    rw [ht]
    simp

/-- C4 counterexample: a supplied seed of 0 is present and differs from -1,
so the claim says it is used verbatim — but `not seed` is true for 0 in
Python, so the code discards it and draws (here `torch.seed()` returning 5
gives effective seed 4, not 0); and the drawn value is
`(torch.seed() % 2**32) - 1` by precedence, which for a raw draw of 0 is
-1 — not a 32-bit unsigned integer. -/
theorem C4_counterexample :
    effectiveSeed (some 0) 5 ≠ 0 ∧ effectiveSeed none 0 = -1 := by
  constructor <;> decide

/-- C4 amended: a supplied seed outside the sentinel set {0, -1} is used
verbatim; an absent seed, a 0 seed, or a -1 seed draws
`(torch.seed() mod 2^32) - 1` from the non-deterministic source, a value in
[-1, 2^32 - 2] (so not always a 32-bit unsigned integer); `set_all_seeds`
applies the one effective value to the Python, NumPy, torch CPU and torch
CUDA generators; and in every prediction trace no generation event precedes
the seeding event, which every normally-returning run performs with the
effective seed. -/
theorem C4_amended_seed_contract (p : Params) (e : Env) (s : ℤ) (r : ℕ) (z : ℤ)
    (hs0 : s ≠ 0) (hs1 : s ≠ -1) :
    effectiveSeed (some s) r = s ∧
    effectiveSeed none r = (r : ℤ) % 2 ^ 32 - 1 ∧
    effectiveSeed (some 0) r = (r : ℤ) % 2 ^ 32 - 1 ∧
    effectiveSeed (some (-1)) r = (r : ℤ) % 2 ^ 32 - 1 ∧
    -1 ≤ effectiveSeed none r ∧ effectiveSeed none r ≤ 2 ^ 32 - 2 ∧
    (set_all_seeds z).pythonRandom = z ∧ (set_all_seeds z).numpyRandom = z ∧
    (set_all_seeds z).torchCpu = z ∧ (set_all_seeds z).torchCuda = z ∧
    Event.generate ∉ beforeSeeding (predict p e).events ∧
    (isErr (predict p e).result = false →
      Event.setSeeds (effectiveSeed p.seed e.randomSeed) ∈ (predict p e).events) := by
  have hmod0 : 0 ≤ (r : ℤ) % 2 ^ 32 := Int.emod_nonneg _ (by norm_num)
  have hmodlt : (r : ℤ) % 2 ^ 32 < 2 ^ 32 := Int.emod_lt_of_pos _ (by norm_num)
  refine ⟨by simp [effectiveSeed, hs0, hs1], rfl, rfl, rfl, ?_, ?_, rfl, rfl, rfl, rfl,
    generate_not_before_seeding p e, setSeeds_mem_of_ok p e⟩
  · simp only [effectiveSeed]
    omega
  · simp only [effectiveSeed]
    omega

/-- Witness for the C4 amended theorem at concrete values. -/
theorem C4_amended_seed_contract_witness :
    ((7:ℤ) ≠ 0 ∧ (7:ℤ) ≠ -1) ∧
    (effectiveSeed (some 7) 5 = 7 ∧
     effectiveSeed none 5 = (5 : ℤ) % 2 ^ 32 - 1 ∧
     effectiveSeed (some 0) 5 = (5 : ℤ) % 2 ^ 32 - 1 ∧
     effectiveSeed (some (-1)) 5 = (5 : ℤ) % 2 ^ 32 - 1 ∧
     -1 ≤ effectiveSeed none 5 ∧ effectiveSeed none 5 ≤ 2 ^ 32 - 2 ∧
     (set_all_seeds 3).pythonRandom = 3 ∧ (set_all_seeds 3).numpyRandom = 3 ∧
     (set_all_seeds 3).torchCpu = 3 ∧ (set_all_seeds 3).torchCuda = 3 ∧
     Event.generate ∉ beforeSeeding (predict baseParams baseEnv).events ∧
     (isErr (predict baseParams baseEnv).result = false →
       Event.setSeeds (effectiveSeed baseParams.seed baseEnv.randomSeed) ∈
         (predict baseParams baseEnv).events)) :=
  ⟨⟨by decide, by decide⟩,
   C4_amended_seed_contract baseParams baseEnv 7 5 3 (by decide) (by decide)⟩

/-- C6: evaluating the prediction with `return_instrumental = true` and wav
output on a fresh working directory shows the bug — the returned list is
ordered with the main mix first as claimed, but its second entry,
`background_synced.wav`, names a file the run never wrote (only the
commented-out beat-sync block would have written it; the active pipeline
writes `background.wav`), while the first entry `out.wav` does exist. -/
theorem C6_instrumental_file_never_written :
    (predict { baseParams with return_instrumental := true } baseEnv).result =
      .ok ["out.wav", "background_synced.wav"] ∧
    "out.wav" ∈ (predict { baseParams with return_instrumental := true } baseEnv).files ∧
    "background_synced.wav" ∉
      (predict { baseParams with return_instrumental := true } baseEnv).files ∧
    "background.wav" ∈
      (predict { baseParams with return_instrumental := true } baseEnv).files := by
  refine ⟨?_, ?_, ?_, ?_⟩ <;> decide

/-- C7: evaluating the prediction with mp3 output when the transcoder
fails shows the bug — `subprocess.call` ignores ffmpeg's exit status, the
wav intermediate is deleted regardless, and the call still returns normally
with the path `out.mp3` even though no such file was produced; when the
transcoder succeeds the encode-transcode-delete order does hold. -/
theorem C7_transcode_failure_not_fatal :
    (predict { baseParams with output_format := "mp3" }
        { baseEnv with ffmpegOk := false }).result = .ok ["out.mp3"] ∧
    "out.mp3" ∉ (predict { baseParams with output_format := "mp3" }
        { baseEnv with ffmpegOk := false }).files ∧
    "out.wav" ∉ (predict { baseParams with output_format := "mp3" }
        { baseEnv with ffmpegOk := false }).files ∧
    (predict { baseParams with output_format := "mp3" } baseEnv).result =
      .ok ["out.mp3"] ∧
    "out.mp3" ∈ (predict { baseParams with output_format := "mp3" } baseEnv).files ∧
    "out.wav" ∉ (predict { baseParams with output_format := "mp3" } baseEnv).files := by
  refine ⟨?_, ?_, ?_, ?_, ?_, ?_⟩ <;> decide
